import Mathlib

/-!
Verification development for the provider-abstracting chat sampler in
`src/ags/agent/lib/sampler.js` (classes `BaseSampler`, `OpenAISampler`,
`ClaudeSampler`, factory `Sampler`).

The JavaScript code is shallowly embedded as follows.

* JS strings are Lean `String`; JS numbers that the sampler merely passes
  through (`temperature`) are `Rat`, and integer-valued fields
  (`maxTokens`, token counts) are `Nat`.
* A JS value that may be `undefined`/`null` is an `Option`; an object
  field that may be absent is an `Option` field.
* JS truthiness on strings (`if (s)`, `a || b`): `""`, `null` and
  `undefined` are falsy, every other string truthy; on numbers `0` is
  falsy.  The helpers `jsOrStr`, `jsOrNat`, `jsTruthyStr` encode this.
* A thrown JS exception is a `JsError` value carrying the error class
  name (`"Error"` for `new Error(msg)`), the message, and an optional
  cause chain; fallible computations return `Except JsError α`.
* The vendor SDK client (`this.client....create(...)`) is an opaque
  external dependency; `chat` is parametrised over a function
  `client : request → Except JsError response` describing the behaviour
  of one SDK call.
* An async generator over a finite vendor event stream is a function
  from the list of events the vendor emits to the list of yielded
  fragments.
-/

/-- JS `a || b` for a possibly-absent string `a`: `undefined`, `null` and
`""` are falsy and fall through to `b`. -/
def jsOrStr (a : Option String) (b : String) : String :=
  match a with
  | some s => if s = "" then b else s
  | none => b

/-- JS `a || b` for a possibly-absent number used as a positive integer:
`undefined`, `null` and `0` are falsy and fall through to `b`. -/
def jsOrNat (a : Option Nat) (b : Nat) : Nat :=
  match a with
  | some n => if n = 0 then b else n
  | none => b

/-- JS truthiness of a possibly-absent string value. -/
def jsTruthyStr (a : Option String) : Bool :=
  match a with
  | some s => !(s == "")
  | none => false

/-- JS `Array.prototype.join('')`: concatenation with no separator. -/
def jsJoin : List String → String
  | [] => ""
  | s :: rest => s ++ jsJoin rest

/-- JS `String.prototype.startsWith`. -/
def jsStartsWith (s p : String) : Bool :=
  s.toList.take p.toList.length == p.toList

/-- JS `String.prototype.toLowerCase`: character-wise lowering (the
provider names involved are ASCII). -/
def jsToLowerCase (s : String) : String := ⟨s.data.map Char.toLower⟩

/-- The four ECMAScript line terminators, which the regexp metacharacter
`.` does not match (the source regexp has no `s` flag). -/
def jsLineTerm (c : Char) : Bool :=
  c = '\n' || c = '\r' || c = Char.ofNat 0x2028 || c = Char.ofNat 0x2029

/-- A thrown JS error value: its class name (`"Error"` for a plain
`new Error(msg)`), its message, and optionally a wrapped cause (the shape
the spec ascribes to `ProviderError{vendor, cause}`).  The repository
itself only ever constructs plain `Error`s; the other constructors exist
so that spec-level statements about error classes can be expressed. -/
inductive JsError where
  | simple (name message : String)
  | withCause (name message : String) (cause : JsError)
deriving DecidableEq, Repr

/-- The class name of a thrown error. -/
def JsError.errName : JsError → String
  | .simple n _ => n
  | .withCause n _ _ => n

/-- JS object `{url}` as used in `image_url` fields. -/
structure ImageUrlObj where
  url : String
deriving DecidableEq, Repr

/-- JS object `item.source` / the `source` field of a Claude image block:
`{type?, media_type?, data?, url?}`.  Absent fields are `none`. -/
structure ImageSource where
  type : Option String := none
  media_type : Option String := none
  data : Option String := none
  url : Option String := none
deriving DecidableEq, Repr

/-- One content item of a structured message (`msg.content` array
element), and also the shape of a formatted output block: a JS object
with a `type` tag and the optional fields the sampler reads or writes. -/
structure ContentItem where
  type : String
  text : Option String := none
  source : Option ImageSource := none
  image_url : Option ImageUrlObj := none
deriving DecidableEq, Repr

/-- `msg.content`: either a plain string or an array of content items
(`typeof msg.content === 'string'` vs `Array.isArray(msg.content)`). -/
inductive MsgContent where
  | str (s : String)
  | arr (items : List ContentItem)
deriving DecidableEq, Repr

/-- A chat message `{role, content}`, both as supplied by the caller and
as produced by the `_formatMessage` translations. -/
structure ChatMessage where
  role : String
  content : MsgContent
deriving DecidableEq, Repr

/-- `PROVIDERS.OPENAI` from sampler.js. -/
def PROVIDERS_OPENAI : String := "openai"

/-- `PROVIDERS.CLAUDE` from sampler.js. -/
def PROVIDERS_CLAUDE : String := "claude"

/-- The `DEFAULT_MODELS` table from sampler.js, keyed by the two
provider constants. -/
structure DefaultModels where
  openai : String
  claude : String
deriving DecidableEq, Repr

/-- `DEFAULT_MODELS = { openai: 'gpt-4o-mini', claude: 'claude-sonnet-4-20250514' }`. -/
def DEFAULT_MODELS : DefaultModels :=
  { openai := "gpt-4o-mini", claude := "claude-sonnet-4-20250514" }

/-- Per-call options (`params.options`). -/
structure CallOptions where
  model : Option String := none
  maxTokens : Option Nat := none
  temperature : Option Rat := none
  store : Option Bool := none
deriving DecidableEq, Repr

/-- The argument of `chat` / `chatStream`:
`{ systemPrompt, messages, options = {} }`. -/
structure ChatParams where
  systemPrompt : Option String := none
  messages : List ChatMessage
  options : CallOptions := {}
deriving DecidableEq, Repr

/-- Constructor options for the samplers and the factory. -/
structure CtorOptions where
  provider : Option String := none
  apiKey : Option String := none
  model : Option String := none
  maxTokens : Option Nat := none
deriving DecidableEq, Repr

/-- The fallthrough tail of `OpenAISampler._formatMessage`'s item mapper:
when `item.source?.data` is falsy, `if (item.image_url) return
{ type: 'image_url', image_url: item.image_url }; return item;`. -/
def oaiImagePassthrough (item : ContentItem) : ContentItem :=
  match item.image_url with
  | some iu => { type := "image_url", image_url := some iu }
  | none => item

/-- The item mapper inside `OpenAISampler._formatMessage` (sampler.js
lines 138–157). -/
def openaiFormatItem (item : ContentItem) : ContentItem :=
  if item.type = "text" then
    { type := "text", text := item.text }
  else if item.type = "image" ∨ item.type = "image_url" then
    match item.source with
    | some src =>
      match src.data with
      | some dt =>
        if dt = "" then oaiImagePassthrough item
        else
          { type := "image_url",
            image_url := some
              ⟨"data:" ++ jsOrStr src.media_type "image/jpeg" ++ ";base64," ++ dt⟩ }
      | none => oaiImagePassthrough item
    | none => oaiImagePassthrough item
  else item

/-- The regexp match `url.match(/^data:([^;]+);base64,(.+)$/)` from
`ClaudeSampler._formatMessage` (sampler.js line 276), returning the two
capture groups on success.  `[^;]+` is the maximal non-empty `;`-free
prefix, the literal `;base64,` must follow, and `(.+)$` requires a
non-empty remainder free of line terminators (`.` without the `s` flag). -/
def dataUrlRegexMatch (url : String) : Option (String × String) :=
  if url.toList.take 5 = "data:".toList then
    if (url.toList.drop 5).takeWhile (· != ';') = [] then none
    else if ((url.toList.drop 5).dropWhile (· != ';')).take 8 = ";base64,".toList then
      if ((url.toList.drop 5).dropWhile (· != ';')).drop 8 = [] then none
      else if (((url.toList.drop 5).dropWhile (· != ';')).drop 8).all
          (fun c => !(jsLineTerm c)) then
        some (((url.toList.drop 5).takeWhile (· != ';')).asString,
              (((url.toList.drop 5).dropWhile (· != ';')).drop 8).asString)
      else none
    else none
  else none

/-- The item mapper inside `ClaudeSampler._formatMessage` (sampler.js
lines 256–299).  The sequential early-return `if`s of the source become a
match chain; reaching no `return` inside the image branch yields the
final `return item`. -/
def claudeFormatItem (item : ContentItem) : ContentItem :=
  if item.type = "text" then
    { type := "text", text := item.text }
  else if item.type = "image" ∨ item.type = "image_url" then
    match item.source with
    | some src =>
      { type := "image",
        source := some
          { type := some "base64",
            media_type := some (jsOrStr src.media_type "image/jpeg"),
            data := src.data } }
    | none =>
      match item.image_url with
      | some iu =>
        if iu.url = "" then item
        else if jsStartsWith iu.url "data:" then
          match dataUrlRegexMatch iu.url with
          | some (m, d) =>
            { type := "image",
              source := some
                { type := some "base64", media_type := some m, data := some d } }
          | none =>
            { type := "image", source := some { type := some "url", url := some iu.url } }
        else
          { type := "image", source := some { type := some "url", url := some iu.url } }
      | none => item
  else item

/-- An `Image{data, mediaType}` content part as the caller supplies it:
`{type: 'image', source: {media_type, data}}`. -/
def mkImageItem (mediaType data : String) : ContentItem :=
  { type := "image", source := some { media_type := some mediaType, data := some data } }

/-- The canonical Claude inline-base64 image block
`{type: 'image', source: {type: 'base64', media_type, data}}`. -/
def claudeImageBase64 (mediaType data : String) : ContentItem :=
  { type := "image",
    source := some
      { type := some "base64", media_type := some mediaType, data := some data } }

/-- The sampler-side state an `OpenAISampler` instance keeps (the SDK
client object is the opaque external dependency and is not part of the
state; it enters as the `client` argument of `chat`/`chatStream`). -/
structure OpenAISampler where
  model : String
  maxTokens : Nat
deriving DecidableEq, Repr

/-- `new OpenAISampler(options)`: `BaseSampler` sets
`maxTokens = options.maxTokens || 1024`, then the subclass sets
`model = options.model || DEFAULT_MODELS[PROVIDERS.OPENAI]`. -/
def OpenAISampler.new (o : CtorOptions) : OpenAISampler :=
  { model := jsOrStr o.model DEFAULT_MODELS.openai,
    maxTokens := jsOrNat o.maxTokens 1024 }

/-- The sampler-side state of a `ClaudeSampler` instance. -/
structure ClaudeSampler where
  model : String
  maxTokens : Nat
deriving DecidableEq, Repr

/-- `new ClaudeSampler(options)`. -/
def ClaudeSampler.new (o : CtorOptions) : ClaudeSampler :=
  { model := jsOrStr o.model DEFAULT_MODELS.claude,
    maxTokens := jsOrNat o.maxTokens 1024 }

/-- The request object passed to `this.client.chat.completions.create`:
`store` is present only when `options.store !== undefined` (verbatim copy
covers this), `stream` only in `chatStream`. -/
structure OAIRequest where
  model : String
  max_tokens : Nat
  temperature : Option Rat
  messages : List ChatMessage
  store : Option Bool := none
  stream : Option Bool := none
deriving DecidableEq, Repr

/-- The request object passed to `this.client.messages.create`:
`system` is set only when `systemPrompt` is truthy, `temperature` only
when `options.temperature !== undefined`, `stream` only in
`chatStream`. -/
structure ClaudeRequest where
  model : String
  max_tokens : Nat
  messages : List ChatMessage
  system : Option String := none
  temperature : Option Rat := none
  stream : Option Bool := none
deriving DecidableEq, Repr

/-- `OpenAISampler._formatMessage` (sampler.js lines 130–162). -/
def OpenAISampler.formatMessage (m : ChatMessage) : ChatMessage :=
  match m.content with
  | .str s => { role := m.role, content := .str s }
  | .arr items => { role := m.role, content := .arr (items.map openaiFormatItem) }

/-- `ClaudeSampler._formatMessage` (sampler.js lines 248–304). -/
def ClaudeSampler.formatMessage (m : ChatMessage) : ChatMessage :=
  match m.content with
  | .str s => { role := m.role, content := .str s }
  | .arr items => { role := m.role, content := .arr (items.map claudeFormatItem) }

/-- The request `OpenAISampler.chat` builds (sampler.js lines 65–87):
model and maxTokens resolution, the conditional system-role message at
the head, then the formatted caller messages. -/
def OpenAISampler.chatRequest (self : OpenAISampler) (p : ChatParams) : OAIRequest :=
  { model := jsOrStr p.options.model self.model,
    max_tokens := jsOrNat p.options.maxTokens self.maxTokens,
    temperature := p.options.temperature,
    messages :=
      (match p.systemPrompt with
       | some s => if s = "" then [] else [{ role := "system", content := .str s }]
       | none => []) ++ p.messages.map OpenAISampler.formatMessage,
    store := p.options.store,
    stream := none }

/-- The request `OpenAISampler.chatStream` builds (sampler.js lines
100–120); identical construction, plus `stream: true` and no `store`. -/
def OpenAISampler.streamRequest (self : OpenAISampler) (p : ChatParams) : OAIRequest :=
  { model := jsOrStr p.options.model self.model,
    max_tokens := jsOrNat p.options.maxTokens self.maxTokens,
    temperature := p.options.temperature,
    messages :=
      (match p.systemPrompt with
       | some s => if s = "" then [] else [{ role := "system", content := .str s }]
       | none => []) ++ p.messages.map OpenAISampler.formatMessage,
    store := none,
    stream := some true }

/-- The request `ClaudeSampler.chat` builds (sampler.js lines 177–196):
no system entry ever enters `messages`; `system` is a top-level field set
only for a truthy `systemPrompt`. -/
def ClaudeSampler.chatRequest (self : ClaudeSampler) (p : ChatParams) : ClaudeRequest :=
  { model := jsOrStr p.options.model self.model,
    max_tokens := jsOrNat p.options.maxTokens self.maxTokens,
    messages := p.messages.map ClaudeSampler.formatMessage,
    system :=
      match p.systemPrompt with
      | some s => if s = "" then none else some s
      | none => none,
    temperature := p.options.temperature,
    stream := none }

/-- The request `ClaudeSampler.chatStream` builds (sampler.js lines
218–237), with `stream: true`. -/
def ClaudeSampler.streamRequest (self : ClaudeSampler) (p : ChatParams) : ClaudeRequest :=
  { model := jsOrStr p.options.model self.model,
    max_tokens := jsOrNat p.options.maxTokens self.maxTokens,
    messages := p.messages.map ClaudeSampler.formatMessage,
    system :=
      match p.systemPrompt with
      | some s => if s = "" then none else some s
      | none => none,
    temperature := p.options.temperature,
    stream := some true }

/-- The result of `Sampler.create`: one of the two variants. -/
inductive CreatedSampler where
  | openai (s : OpenAISampler)
  | claude (s : ClaudeSampler)
deriving DecidableEq, Repr

/-- The process environment the factory reads (`process.env.LLM_PROVIDER`). -/
structure Env where
  LLM_PROVIDER : Option String := none
deriving DecidableEq, Repr

/-- `Sampler.create(options)` (sampler.js lines 320–335):
`const provider = options.provider || process.env.LLM_PROVIDER || PROVIDERS.OPENAI;`
then a `switch (provider.toLowerCase())` over the two provider constants
and their aliases, with `default: throw new Error(...)`. -/
def Sampler.create (o : CtorOptions) (env : Env) : Except JsError CreatedSampler :=
  let provider := jsOrStr o.provider (jsOrStr env.LLM_PROVIDER PROVIDERS_OPENAI)
  if jsToLowerCase provider = PROVIDERS_OPENAI ∨ jsToLowerCase provider = "gpt" then
    .ok (.openai (OpenAISampler.new o))
  else if jsToLowerCase provider = PROVIDERS_CLAUDE ∨ jsToLowerCase provider = "anthropic" then
    .ok (.claude (ClaudeSampler.new o))
  else
    .error (.simple "Error" ("Unknown provider: " ++ provider ++ ". Use 'openai' or 'claude'."))

/-- An OpenAI chat-completion response message; per the vendor API,
`content` is a string or `null` (`null` e.g. for refusal or
tool-call-only responses). -/
structure OAIRespMessage where
  content : Option String
deriving DecidableEq, Repr

/-- One element of `response.choices`. -/
structure OAIChoice where
  message : OAIRespMessage
deriving DecidableEq, Repr

/-- `response.usage` of the OpenAI response. -/
structure OAIUsage where
  prompt_tokens : Option Nat := none
  completion_tokens : Option Nat := none
deriving DecidableEq, Repr

/-- The raw OpenAI chat-completion response, as far as the sampler
reads it. -/
structure OAIResponse where
  choices : List OAIChoice
  usage : Option OAIUsage := none
  model : String
deriving DecidableEq, Repr

/-- One block of `response.content` in the Anthropic response; the
sampler reads `type` always and `text` only on `type === 'text'`
blocks (which always carry it). -/
structure ClaudeBlock where
  type : String
  text : String := ""
deriving DecidableEq, Repr

/-- `response.usage` of the Anthropic response. -/
structure ClaudeUsage where
  input_tokens : Option Nat := none
  output_tokens : Option Nat := none
deriving DecidableEq, Repr

/-- The raw Anthropic response, as far as the sampler reads it. -/
structure ClaudeResponse where
  content : List ClaudeBlock
  usage : Option ClaudeUsage := none
  model : String
  stop_reason : Option String := none
deriving DecidableEq, Repr

/-- The normalized `usage` object of a `ChatResponse`. -/
structure ChatUsage where
  inputTokens : Option Nat
  outputTokens : Option Nat
deriving DecidableEq, Repr

/-- The object `chat` returns, over the raw vendor response type.
`text` is `Option String` because the OpenAI variant copies a
possibly-`null` field; `stopReason` is `none` exactly when the returned
object has no such key. -/
structure ChatResponse (Raw : Type) where
  text : Option String
  usage : ChatUsage
  model : String
  stopReason : Option String
  raw : Raw
deriving DecidableEq, Repr

/-- The response normalization in `OpenAISampler.chat` (sampler.js lines
89–97).  `response.choices[0]` on an empty `choices` array is
`undefined`, so reading `.message` on it throws a `TypeError`; otherwise
the returned object copies `choices[0].message.content` verbatim and
carries no `stopReason` key. -/
def OpenAISampler.normalizeResponse (r : OAIResponse) :
    Except JsError (ChatResponse OAIResponse) :=
  match r.choices.head? with
  | none =>
    .error (.simple "TypeError" "Cannot read properties of undefined (reading 'message')")
  | some c =>
    .ok { text := c.message.content,
          usage := { inputTokens := (r.usage.bind (fun u => u.prompt_tokens)),
                     outputTokens := (r.usage.bind (fun u => u.completion_tokens)) },
          model := r.model,
          stopReason := none,
          raw := r }

/-- The response normalization in `ClaudeSampler.chat` (sampler.js lines
200–215): `response.content.filter(b => b.type === 'text').map(b => b.text).join('')`,
plus `stopReason: response.stop_reason` and `raw: response`. -/
def ClaudeSampler.normalizeResponse (r : ClaudeResponse) : ChatResponse ClaudeResponse :=
  { text := some (jsJoin ((r.content.filter (fun b => b.type == "text")).map (fun b => b.text))),
    usage := { inputTokens := (r.usage.bind (fun u => u.input_tokens)),
               outputTokens := (r.usage.bind (fun u => u.output_tokens)) },
    model := r.model,
    stopReason := r.stop_reason,
    raw := r }

/-- `OpenAISampler.chat` (sampler.js lines 65–98): build the request,
await the vendor client (whose single-call behaviour is the `client`
argument), and normalize.  There is no try/catch in the source: a client
failure propagates. -/
def OpenAISampler.chat (self : OpenAISampler)
    (client : OAIRequest → Except JsError OAIResponse) (p : ChatParams) :
    Except JsError (ChatResponse OAIResponse) :=
  match client (self.chatRequest p) with
  | .error e => .error e
  | .ok r => OpenAISampler.normalizeResponse r

/-- `ClaudeSampler.chat` (sampler.js lines 177–216); same structure, and
its normalization is total. -/
def ClaudeSampler.chat (self : ClaudeSampler)
    (client : ClaudeRequest → Except JsError ClaudeResponse) (p : ChatParams) :
    Except JsError (ChatResponse ClaudeResponse) :=
  match client (self.chatRequest p) with
  | .error e => .error e
  | .ok r => .ok (ClaudeSampler.normalizeResponse r)

/-- `chunk.choices[0]?.delta` object of an OpenAI stream chunk. -/
structure OAIDelta where
  content : Option String := none
deriving DecidableEq, Repr

/-- One element of `chunk.choices` in a stream chunk. -/
structure OAIChunkChoice where
  delta : Option OAIDelta := none
deriving DecidableEq, Repr

/-- One chunk of the OpenAI event stream. -/
structure OAIChunk where
  choices : List OAIChunkChoice
deriving DecidableEq, Repr

/-- `chunk.choices[0]?.delta?.content` with optional chaining. -/
def chunkDeltaContent (c : OAIChunk) : Option String :=
  (c.choices.head?.bind (fun ch => ch.delta)).bind (fun d => d.content)

/-- The yield loop of `OpenAISampler.chatStream` (sampler.js lines
122–127) over the finite list of chunks the vendor emits:
`const delta = chunk.choices[0]?.delta?.content; if (delta) yield delta;`. -/
def OpenAISampler.chatStreamYields : List OAIChunk → List String
  | [] => []
  | c :: rest =>
    match chunkDeltaContent c with
    | some d =>
      if d = "" then OpenAISampler.chatStreamYields rest
      else d :: OpenAISampler.chatStreamYields rest
    | none => OpenAISampler.chatStreamYields rest

/-- `event.delta` object of an Anthropic stream event. -/
structure ClaudeDeltaObj where
  text : Option String := none
deriving DecidableEq, Repr

/-- One event of the Anthropic event stream: its `type` tag
(`message_start`, `content_block_start`, `content_block_delta`, ...) and
its optional `delta` object. -/
structure ClaudeEvent where
  type : String
  delta : Option ClaudeDeltaObj := none
deriving DecidableEq, Repr

/-- `event.delta?.text` with optional chaining. -/
def claudeEventText (e : ClaudeEvent) : Option String :=
  e.delta.bind (fun d => d.text)

/-- The yield loop of `ClaudeSampler.chatStream` (sampler.js lines
241–245): `if (event.type === 'content_block_delta' && event.delta?.text)
yield event.delta.text;`. -/
def ClaudeSampler.chatStreamYields : List ClaudeEvent → List String
  | [] => []
  | e :: rest =>
    if e.type = "content_block_delta" then
      match claudeEventText e with
      | some t =>
        if t = "" then ClaudeSampler.chatStreamYields rest
        else t :: ClaudeSampler.chatStreamYields rest
      | none => ClaudeSampler.chatStreamYields rest
    else ClaudeSampler.chatStreamYields rest

/-- Follows the spec's words (§4.3, §8): the ordered concatenation of all
text-tagged blocks of a response's content, non-text blocks dropped, no
separator inserted. -/
def specTextConcat : List ClaudeBlock → String
  | [] => ""
  | b :: rest =>
    if b.type = "text" then b.text ++ specTextConcat rest else specTextConcat rest

/-- Follows the spec's words applied to the OpenAI response shape: the
text-tagged blocks of such a response are its first choice's message text
content when that content is present (and there are none when it is
`null`); the claimed `text` is their ordered concatenation. -/
def specOAITextConcat (r : OAIResponse) : String :=
  jsJoin
    (match r.choices.head? with
     | some c => match c.message.content with | some s => [s] | none => []
     | none => [])

/-- Follows the spec's words (§4.2, streaming): exactly the text
fragments of the deltas that carry text, in emission order. -/
def specOpenAIFragments (chunks : List OAIChunk) : List String :=
  chunks.filterMap (fun c =>
    match chunkDeltaContent c with
    | some d => if d = "" then none else some d
    | none => none)

/-- Follows the spec's words (§4.3, streaming): exactly the text
fragments of the events tagged as incremental content deltas that carry
text; all other events contribute nothing. -/
def specClaudeFragments (events : List ClaudeEvent) : List String :=
  events.filterMap (fun e =>
    if e.type = "content_block_delta" then
      match claudeEventText e with
      | some t => if t = "" then none else some t
      | none => none
    else none)

lemma openaiFormatMessage_role (m : ChatMessage) :
    (OpenAISampler.formatMessage m).role = m.role := by
  obtain ⟨r, c⟩ := m
  cases c <;> rfl

lemma claudeFormatMessage_role (m : ChatMessage) :
    (ClaudeSampler.formatMessage m).role = m.role := by
  obtain ⟨r, c⟩ := m
  cases c <;> rfl

lemma jsJoin_filter_textBlocks (l : List ClaudeBlock) :
    jsJoin ((l.filter (fun b => b.type == "text")).map (fun b => b.text))
      = specTextConcat l := by
  induction l with
  | nil => rfl
  | cons b rest ih =>
    by_cases hb : b.type = "text"
    · simp [List.filter_cons, hb, jsJoin, specTextConcat, ih]
    · simp [List.filter_cons, hb, specTextConcat, ih]

lemma takeWhile_append_semi (l r : List Char) (h : ∀ c ∈ l, c ≠ ';') :
    (l ++ ';' :: r).takeWhile (· != ';') = l := by
  induction l with
  | nil => simp [List.takeWhile_cons]
  | cons c cs ih =>
    have hc : c ≠ ';' := h c (List.mem_cons_self c cs)
    simp [List.takeWhile_cons, bne_iff_ne, hc,
      ih (fun x hx => h x (List.mem_cons_of_mem c hx))]

lemma dropWhile_append_semi (l r : List Char) (h : ∀ c ∈ l, c ≠ ';') :
    (l ++ ';' :: r).dropWhile (· != ';') = ';' :: r := by
  induction l with
  | nil => simp [List.dropWhile_cons]
  | cons c cs ih =>
    have hc : c ≠ ';' := h c (List.mem_cons_self c cs)
    simp [List.dropWhile_cons, bne_iff_ne, hc,
      ih (fun x hx => h x (List.mem_cons_of_mem c hx))]

lemma dataUrlRegexMatch_concat (mt d : String) (h1 : mt ≠ "")
    (h2 : ∀ c ∈ mt.data, c ≠ ';') (h3 : d ≠ "")
    (h4 : ∀ c ∈ d.data, jsLineTerm c = false) :
    dataUrlRegexMatch ("data:" ++ mt ++ ";base64," ++ d) = some (mt, d) := by
  have hmt : mt.data ≠ [] := fun hh => h1 (String.ext hh)
  have hd : d.data ≠ [] := fun hh => h3 (String.ext hh)
  have hdata : ("data:" ++ mt ++ ";base64," ++ d).toList
      = ("data:").toList ++ (mt.data ++ (';' :: (("base64,").data ++ d.data))) := by
    show ("data:" ++ mt ++ ";base64," ++ d).data = _
    have hsep : (";base64,").data = ';' :: ("base64,").data := rfl
    simp [String.data_append, hsep, List.append_assoc]
  have h5 : ("data:" ++ mt ++ ";base64," ++ d).toList.take 5 = ("data:").toList := by
    rw [hdata]; exact List.take_left' rfl
  have hdrop5 : ("data:" ++ mt ++ ";base64," ++ d).toList.drop 5
      = mt.data ++ (';' :: (("base64,").data ++ d.data)) := by
    rw [hdata]; exact List.drop_left' rfl
  have htw : (mt.data ++ (';' :: (("base64,").data ++ d.data))).takeWhile (· != ';')
      = mt.data := takeWhile_append_semi _ _ h2
  have hdw : (mt.data ++ (';' :: (("base64,").data ++ d.data))).dropWhile (· != ';')
      = ';' :: (("base64,").data ++ d.data) := dropWhile_append_semi _ _ h2
  have hlen8 : (';' :: ("base64,").data).length = 8 := rfl
  have ht8 : (';' :: (("base64,").data ++ d.data)).take 8 = (";base64,").toList := by
    rw [← List.cons_append]; exact List.take_left' hlen8
  have hd8 : (';' :: (("base64,").data ++ d.data)).drop 8 = d.data := by
    rw [← List.cons_append]; exact List.drop_left' hlen8
  have hall : (d.data).all (fun c => !(jsLineTerm c)) = true := by
    simp only [List.all_eq_true]
    intro c hc
    simp [h4 c hc]
  simp only [dataUrlRegexMatch, h5, hdrop5, htw, hdw, ht8, hd8, hall]
  simp only [hmt, hd]
  simp [hmt, hd]
  exact ⟨rfl, rfl⟩

lemma jsStartsWith_append (p r : String) : jsStartsWith (p ++ r) p = true := by
  show ((p ++ r).toList.take p.toList.length == p.toList) = true
  have : (p ++ r).toList = p.data ++ r.data := String.data_append p r
  rw [this]
  simp [List.take_left]

lemma append_ne_empty_of_left (p r : String) (h : p.data ≠ []) : p ++ r ≠ "" := by
  intro hh
  apply h
  have : (p ++ r).data = ([] : List Char) := by rw [hh]
  rw [String.data_append] at this
  exact (List.append_eq_nil.mp this).1

/-- A concrete vendor-client behaviour that raises a transport failure
(the kind of error the vendor SDK surfaces on a connection problem). -/
def failingOAIClient : OAIRequest → Except JsError OAIResponse :=
  fun _ => .error (.simple "APIConnectionError" "Connection error.")

/-- A concrete Anthropic vendor-client behaviour raising a transport
failure. -/
def failingClaudeClient : ClaudeRequest → Except JsError ClaudeResponse :=
  fun _ => .error (.simple "APIConnectionError" "Connection error.")

/-- C1, amended: for every request, if the vendor client raises any
failure during `chat`, then `chat` fails by propagating exactly that
failure (there is no try/catch and no `ProviderError` wrapper in the
source: the cause reaching the caller is the vendor failure itself) and
returns no response object; no partial or default response is returned
on failure.  Holds for both the OpenAI and the Anthropic variant. -/
theorem chat_propagates_vendor_failure :
    (∀ (s : OpenAISampler) (client : OAIRequest → Except JsError OAIResponse)
       (p : ChatParams) (e : JsError),
       client (s.chatRequest p) = .error e →
       s.chat client p = .error e ∧ ∀ resp, s.chat client p ≠ .ok resp) ∧
    (∀ (s : ClaudeSampler) (client : ClaudeRequest → Except JsError ClaudeResponse)
       (p : ChatParams) (e : JsError),
       client (s.chatRequest p) = .error e →
       s.chat client p = .error e ∧ ∀ resp, s.chat client p ≠ .ok resp) := by
  constructor
  · intro s client p e h
    refine ⟨by simp [OpenAISampler.chat, h], ?_⟩
    intro resp hok
    simp [OpenAISampler.chat, h] at hok
  · intro s client p e h
    refine ⟨by simp [ClaudeSampler.chat, h], ?_⟩
    intro resp hok
    simp [ClaudeSampler.chat, h] at hok

/-- Witness for C1 at a concrete failing client and request. -/
theorem chat_propagates_vendor_failure_witness :
    (OpenAISampler.new {}).chat failingOAIClient
        { messages := [{ role := "user", content := .str "hi" }] }
      = .error (.simple "APIConnectionError" "Connection error.") :=
  (chat_propagates_vendor_failure.1 (OpenAISampler.new {}) failingOAIClient
    { messages := [{ role := "user", content := .str "hi" }] }
    (.simple "APIConnectionError" "Connection error.") rfl).1

/-- C1 counterexample: at this concrete transport failure, `chat`'s
error is the vendor failure itself; it is not a `ProviderError`-class
value wrapping that failure, as the claim states. -/
theorem chat_providerError_counterexample :
    (OpenAISampler.new {}).chat failingOAIClient
        { messages := [{ role := "user", content := .str "hi" }] }
      = .error (.simple "APIConnectionError" "Connection error.") ∧
    ¬ ∃ (vendor : String) (cause : JsError),
      (OpenAISampler.new {}).chat failingOAIClient
          { messages := [{ role := "user", content := .str "hi" }] }
        = .error (.withCause "ProviderError" vendor cause) := by
  refine ⟨rfl, ?_⟩
  rintro ⟨v, cause, h⟩
  have hc : (OpenAISampler.new {}).chat failingOAIClient
      { messages := [{ role := "user", content := .str "hi" }] }
      = .error (.simple "APIConnectionError" "Connection error.") := rfl
  rw [hc] at h
  injection h with h1
  exact JsError.noConfusion h1

/-- C5, amended: `Sampler.create` resolves the provider name from
`config.provider`, else `process.env.LLM_PROVIDER`, else the built-in
default `'openai'`; it accepts the resolved name case-insensitively,
maps `'openai'`/`'gpt'` to the OpenAI variant and `'claude'`/
`'anthropic'` to the Anthropic variant; for any other name it throws a
plain `Error` naming the unknown provider (the repository defines no
`ConfigurationError` class). -/
theorem sampler_create_resolution :
    (∀ (o : CtorOptions) (env : Env) (p : String), o.provider = some p → p ≠ "" →
      ((jsToLowerCase p = PROVIDERS_OPENAI ∨ jsToLowerCase p = "gpt") →
        Sampler.create o env = .ok (.openai (OpenAISampler.new o))) ∧
      ((jsToLowerCase p = PROVIDERS_CLAUDE ∨ jsToLowerCase p = "anthropic") →
        Sampler.create o env = .ok (.claude (ClaudeSampler.new o))) ∧
      (¬ (jsToLowerCase p = PROVIDERS_OPENAI ∨ jsToLowerCase p = "gpt" ∨
          jsToLowerCase p = PROVIDERS_CLAUDE ∨ jsToLowerCase p = "anthropic") →
        Sampler.create o env
          = .error (.simple "Error"
              ("Unknown provider: " ++ p ++ ". Use 'openai' or 'claude'.")))) ∧
    (∀ (o : CtorOptions) (env : Env) (e : String),
      (o.provider = none ∨ o.provider = some "") → env.LLM_PROVIDER = some e → e ≠ "" →
      ((jsToLowerCase e = PROVIDERS_OPENAI ∨ jsToLowerCase e = "gpt") →
        Sampler.create o env = .ok (.openai (OpenAISampler.new o))) ∧
      ((jsToLowerCase e = PROVIDERS_CLAUDE ∨ jsToLowerCase e = "anthropic") →
        Sampler.create o env = .ok (.claude (ClaudeSampler.new o))) ∧
      (¬ (jsToLowerCase e = PROVIDERS_OPENAI ∨ jsToLowerCase e = "gpt" ∨
          jsToLowerCase e = PROVIDERS_CLAUDE ∨ jsToLowerCase e = "anthropic") →
        Sampler.create o env
          = .error (.simple "Error"
              ("Unknown provider: " ++ e ++ ". Use 'openai' or 'claude'.")))) ∧
    (∀ (o : CtorOptions) (env : Env),
      (o.provider = none ∨ o.provider = some "") →
      (env.LLM_PROVIDER = none ∨ env.LLM_PROVIDER = some "") →
      Sampler.create o env = .ok (.openai (OpenAISampler.new o))) := by
  refine ⟨?_, ?_, ?_⟩
  · intro o env p hp hpne
    have hres : jsOrStr o.provider (jsOrStr env.LLM_PROVIDER PROVIDERS_OPENAI) = p := by
      simp [jsOrStr, hp, hpne]
    refine ⟨?_, ?_, ?_⟩
    · intro hd
      simp only [Sampler.create, hres]
      rcases hd with h | h <;> simp [h]
    · intro hd
      have hno : ¬ (jsToLowerCase p = PROVIDERS_OPENAI ∨ jsToLowerCase p = "gpt") := by
        rcases hd with h | h <;> rw [h] <;> decide
      simp only [Sampler.create, hres]
      rcases hd with h | h <;> simp [h, hno] <;> decide
    · intro hd
      push_neg at hd
      simp only [Sampler.create, hres]
      simp [hd.1, hd.2.1, hd.2.2.1, hd.2.2.2]
  · intro o env e ho he hene
    have hres : jsOrStr o.provider (jsOrStr env.LLM_PROVIDER PROVIDERS_OPENAI) = e := by
      rcases ho with h | h <;> simp [jsOrStr, h, he, hene]
    refine ⟨?_, ?_, ?_⟩
    · intro hd
      simp only [Sampler.create, hres]
      rcases hd with h | h <;> simp [h]
    · intro hd
      have hno : ¬ (jsToLowerCase e = PROVIDERS_OPENAI ∨ jsToLowerCase e = "gpt") := by
        rcases hd with h | h <;> rw [h] <;> decide
      simp only [Sampler.create, hres]
      rcases hd with h | h <;> simp [h, hno] <;> decide
    · intro hd
      push_neg at hd
      simp only [Sampler.create, hres]
      simp [hd.1, hd.2.1, hd.2.2.1, hd.2.2.2]
  · intro o env ho he
    have hres : jsOrStr o.provider (jsOrStr env.LLM_PROVIDER PROVIDERS_OPENAI)
        = PROVIDERS_OPENAI := by
      rcases ho with h | h <;> rcases he with h2 | h2 <;> simp [jsOrStr, h, h2]
    simp only [Sampler.create, hres]
    rw [if_pos (Or.inl (show jsToLowerCase PROVIDERS_OPENAI = PROVIDERS_OPENAI from by decide))]

/-- Witness for C5: the alias `"GPT"` (case-insensitive) resolves to the
OpenAI variant, and `"Anthropic"` to the Claude variant. -/
theorem sampler_create_resolution_witness :
    Sampler.create { provider := some "GPT" } {}
        = .ok (.openai (OpenAISampler.new { provider := some "GPT" })) ∧
    Sampler.create { provider := some "Anthropic" } {}
        = .ok (.claude (ClaudeSampler.new { provider := some "Anthropic" })) :=
  ⟨(sampler_create_resolution.1 { provider := some "GPT" } {} "GPT" rfl
      (by decide)).1 (Or.inr (by decide)),
   (sampler_create_resolution.1 { provider := some "Anthropic" } {} "Anthropic" rfl
      (by decide)).2.1 (Or.inr (by decide))⟩

/-- C5 counterexample: `create({provider: "unknown"})` throws a plain
`Error` (class name `"Error"`), not a `ConfigurationError`-class value
as the claim states. -/
theorem sampler_create_configurationError_counterexample :
    Sampler.create { provider := some "unknown" } {}
        = .error (.simple "Error" "Unknown provider: unknown. Use 'openai' or 'claude'.") ∧
    ¬ ∃ (d : String), Sampler.create { provider := some "unknown" } {}
        = .error (.simple "ConfigurationError" d) := by
  refine ⟨rfl, ?_⟩
  rintro ⟨d, h⟩
  have hc : Sampler.create { provider := some "unknown" } {}
      = .error (.simple "Error" "Unknown provider: unknown. Use 'openai' or 'claude'.") := rfl
  rw [hc] at h
  injection h with h1
  injection h1 with h2 h3
  exact absurd h2 (by decide)

/-- C6 (confirmed): for every chat or chatStream call, the effective
model is `request.options.model` if supplied (truthy), else the model
given at construction, else the per-provider default model constant; in
particular a Claude sampler constructed without an explicit model uses
the Anthropic default model constant. -/
theorem effective_model_resolution :
    (∀ (o : CtorOptions) (p : ChatParams) (m : String),
       p.options.model = some m → m ≠ "" →
       ((OpenAISampler.new o).chatRequest p).model = m ∧
       ((OpenAISampler.new o).streamRequest p).model = m ∧
       ((ClaudeSampler.new o).chatRequest p).model = m ∧
       ((ClaudeSampler.new o).streamRequest p).model = m) ∧
    (∀ (o : CtorOptions) (p : ChatParams) (cm : String),
       (p.options.model = none ∨ p.options.model = some "") →
       o.model = some cm → cm ≠ "" →
       ((OpenAISampler.new o).chatRequest p).model = cm ∧
       ((OpenAISampler.new o).streamRequest p).model = cm ∧
       ((ClaudeSampler.new o).chatRequest p).model = cm ∧
       ((ClaudeSampler.new o).streamRequest p).model = cm) ∧
    (∀ (o : CtorOptions) (p : ChatParams),
       (p.options.model = none ∨ p.options.model = some "") →
       (o.model = none ∨ o.model = some "") →
       ((OpenAISampler.new o).chatRequest p).model = DEFAULT_MODELS.openai ∧
       ((OpenAISampler.new o).streamRequest p).model = DEFAULT_MODELS.openai ∧
       ((ClaudeSampler.new o).chatRequest p).model = DEFAULT_MODELS.claude ∧
       ((ClaudeSampler.new o).streamRequest p).model = DEFAULT_MODELS.claude) ∧
    (∀ (o : CtorOptions), (o.model = none ∨ o.model = some "") →
       (ClaudeSampler.new o).model = "claude-sonnet-4-20250514") := by
  refine ⟨?_, ?_, ?_, ?_⟩
  · intro o p m hm hmne
    refine ⟨?_, ?_, ?_, ?_⟩ <;>
      simp [OpenAISampler.chatRequest, OpenAISampler.streamRequest,
        ClaudeSampler.chatRequest, ClaudeSampler.streamRequest, jsOrStr, hm, hmne]
  · intro o p cm hpm hcm hcmne
    rcases hpm with h | h <;>
      refine ⟨?_, ?_, ?_, ?_⟩ <;>
        simp [OpenAISampler.chatRequest, OpenAISampler.streamRequest,
          ClaudeSampler.chatRequest, ClaudeSampler.streamRequest,
          OpenAISampler.new, ClaudeSampler.new, jsOrStr, h, hcm, hcmne]
  · intro o p hpm hom
    rcases hpm with h | h <;> rcases hom with h2 | h2 <;>
      refine ⟨?_, ?_, ?_, ?_⟩ <;>
        simp [OpenAISampler.chatRequest, OpenAISampler.streamRequest,
          ClaudeSampler.chatRequest, ClaudeSampler.streamRequest,
          OpenAISampler.new, ClaudeSampler.new, jsOrStr, h, h2]
  · intro o hom
    rcases hom with h | h <;> simp [ClaudeSampler.new, jsOrStr, h, DEFAULT_MODELS]

/-- Witness for C6: a Claude sampler constructed with no model and called
with no per-request model uses the Anthropic default model constant, and
a per-request model wins when supplied. -/
theorem effective_model_resolution_witness :
    ((ClaudeSampler.new {}).chatRequest { messages := [] }).model = DEFAULT_MODELS.claude ∧
    ((OpenAISampler.new {}).chatRequest
        { messages := [], options := { model := some "gpt-4.1" } }).model = "gpt-4.1" :=
  ⟨(effective_model_resolution.2.2.1 {} { messages := [] } (Or.inl rfl) (Or.inl rfl)).2.2.1,
   (effective_model_resolution.1 {} { messages := [], options := { model := some "gpt-4.1" } }
      "gpt-4.1" rfl (by decide)).1⟩

/-- C3 (confirmed): for every request with a non-empty system prompt,
the OpenAI-variant translation places exactly one system-role entry at
the head of the translated message list (exactly one provided the caller
messages carry no system role themselves, which the data model's roles
exclude), while the Anthropic-variant translation places no system-role
entry in the messages list and passes the prompt as the dedicated
top-level `system` field; with no system prompt the OpenAI variant adds
no system entry and the Anthropic variant sets no such field. -/
theorem system_prompt_translation :
    (∀ (s : OpenAISampler) (c : ClaudeSampler) (sp : String)
       (msgs : List ChatMessage) (opts : CallOptions), sp ≠ "" →
       (s.chatRequest { systemPrompt := some sp, messages := msgs, options := opts }).messages
         = { role := "system", content := .str sp } :: msgs.map OpenAISampler.formatMessage ∧
       ((∀ m ∈ msgs, m.role ≠ "system") →
         ((s.chatRequest { systemPrompt := some sp, messages := msgs, options := opts }).messages.countP (fun m => m.role == "system")) = 1) ∧
       (c.chatRequest { systemPrompt := some sp, messages := msgs, options := opts }).system
         = some sp ∧
       (c.chatRequest { systemPrompt := some sp, messages := msgs, options := opts }).messages
         = msgs.map ClaudeSampler.formatMessage ∧
       ((∀ m ∈ msgs, m.role ≠ "system") →
         ∀ m ∈ (c.chatRequest { systemPrompt := some sp, messages := msgs, options := opts }).messages, m.role ≠ "system")) ∧
    (∀ (s : OpenAISampler) (c : ClaudeSampler) (msgs : List ChatMessage)
       (opts : CallOptions) (sp : Option String), (sp = none ∨ sp = some "") →
       (s.chatRequest { systemPrompt := sp, messages := msgs, options := opts }).messages
         = msgs.map OpenAISampler.formatMessage ∧
       (c.chatRequest { systemPrompt := sp, messages := msgs, options := opts }).system
         = none) := by
  constructor
  · intro s c sp msgs opts hsp
    refine ⟨?_, ?_, ?_, ?_, ?_⟩
    · simp [OpenAISampler.chatRequest, hsp]
    · intro hroles
      have hmap : (msgs.map OpenAISampler.formatMessage).countP
          (fun m => m.role == "system") = 0 := by
        rw [List.countP_eq_zero]
        intro m hm
        rcases List.mem_map.mp hm with ⟨m', hm', rfl⟩
        simp [openaiFormatMessage_role, hroles m' hm']
      simp [OpenAISampler.chatRequest, hsp, List.countP_cons, hmap]
    · simp [ClaudeSampler.chatRequest, hsp]
    · simp [ClaudeSampler.chatRequest]
    · intro hroles m hm
      simp only [ClaudeSampler.chatRequest] at hm
      rcases List.mem_map.mp hm with ⟨m', hm', rfl⟩
      simp [claudeFormatMessage_role, hroles m' hm']
  · intro s c msgs opts sp hsp
    rcases hsp with h | h <;>
      constructor <;> simp [OpenAISampler.chatRequest, ClaudeSampler.chatRequest, h]

/-- Witness for C3 at a concrete request. -/
theorem system_prompt_translation_witness :
    ((OpenAISampler.new {}).chatRequest
        { systemPrompt := some "be brief",
          messages := [{ role := "user", content := .str "hi" }] }).messages
      = [{ role := "system", content := .str "be brief" },
         { role := "user", content := .str "hi" }] ∧
    ((ClaudeSampler.new {}).chatRequest
        { systemPrompt := some "be brief",
          messages := [{ role := "user", content := .str "hi" }] }).system
      = some "be brief" := by
  have h := system_prompt_translation.1 (OpenAISampler.new {}) (ClaudeSampler.new {})
    "be brief" [{ role := "user", content := MsgContent.str "hi" }] {}
    (show ("be brief" : String) ≠ "" from by decide)
  exact ⟨h.1, h.2.2.1⟩

/-- C9 (confirmed): a request whose `systemPrompt` is the empty string is
translated exactly as if no system prompt were supplied, for both
variants and for both `chat` and `chatStream` request construction; in
particular no system-role message is added and no top-level `system`
field is set. -/
theorem empty_system_prompt_like_absent :
    ∀ (s : OpenAISampler) (c : ClaudeSampler) (msgs : List ChatMessage)
      (opts : CallOptions),
      s.chatRequest { systemPrompt := some "", messages := msgs, options := opts }
        = s.chatRequest { systemPrompt := none, messages := msgs, options := opts } ∧
      s.streamRequest { systemPrompt := some "", messages := msgs, options := opts }
        = s.streamRequest { systemPrompt := none, messages := msgs, options := opts } ∧
      c.chatRequest { systemPrompt := some "", messages := msgs, options := opts }
        = c.chatRequest { systemPrompt := none, messages := msgs, options := opts } ∧
      c.streamRequest { systemPrompt := some "", messages := msgs, options := opts }
        = c.streamRequest { systemPrompt := none, messages := msgs, options := opts } ∧
      (s.chatRequest { systemPrompt := some "", messages := msgs, options := opts }).messages
        = msgs.map OpenAISampler.formatMessage ∧
      (c.chatRequest { systemPrompt := some "", messages := msgs, options := opts }).system
        = none := by
  intro s c msgs opts
  refine ⟨?_, ?_, ?_, ?_, ?_, ?_⟩ <;>
    simp [OpenAISampler.chatRequest, OpenAISampler.streamRequest,
      ClaudeSampler.chatRequest, ClaudeSampler.streamRequest]

/-- C2, amended: for the Anthropic variant, `ChatResponse.text` always
equals the ordered concatenation of the text-tagged content blocks of the
raw vendor response, with non-text blocks excluded (without error) and no
separator; the OpenAI variant copies the first choice's message content
verbatim — this equals the single text content when present, but is
`null` rather than the empty concatenation when the message carries no
text content. -/
theorem chatResponse_text_extraction :
    (∀ r : ClaudeResponse,
       (ClaudeSampler.normalizeResponse r).text = some (specTextConcat r.content)) ∧
    (∀ (r : OAIResponse) (c : OAIChoice) (resp : ChatResponse OAIResponse),
       r.choices.head? = some c →
       OpenAISampler.normalizeResponse r = .ok resp →
       resp.text = c.message.content) := by
  constructor
  · intro r
    simp [ClaudeSampler.normalizeResponse, jsJoin_filter_textBlocks]
  · intro r c resp hc h
    unfold OpenAISampler.normalizeResponse at h
    rw [hc] at h
    injection h with h1
    rw [← h1]

/-- A concrete Anthropic response mixing text and non-text blocks. -/
def claudeRespEx : ClaudeResponse :=
  { content := [{ type := "text", text := "Hel" }, { type := "tool_use" },
                { type := "text", text := "lo" }],
    model := "claude-sonnet-4-20250514", stop_reason := some "end_turn" }

/-- A concrete OpenAI response with a single string-content choice. -/
def oaiRespEx : OAIResponse :=
  { choices := [{ message := { content := some "hello" } }], model := "gpt-4o-mini" }

/-- Witness for C2 at concrete vendor responses. -/
theorem chatResponse_text_extraction_witness :
    (ClaudeSampler.normalizeResponse claudeRespEx).text
        = some (specTextConcat claudeRespEx.content) ∧
    ({ text := some "hello", usage := { inputTokens := none, outputTokens := none },
       model := "gpt-4o-mini", stopReason := none,
       raw := oaiRespEx } : ChatResponse OAIResponse).text
      = ({ message := { content := some "hello" } } : OAIChoice).message.content :=
  ⟨chatResponse_text_extraction.1 claudeRespEx,
   chatResponse_text_extraction.2 oaiRespEx { message := { content := some "hello" } } _ rfl rfl⟩

/-- A concrete OpenAI response whose first choice carries no text
content (`content: null`, as the vendor emits for refusal or
tool-call-only responses). -/
def oaiNullContentResp : OAIResponse :=
  { choices := [{ message := { content := none } }], model := "gpt-4o-mini" }

/-- C2 counterexample: on a raw OpenAI response with `null` message
content — a response with no text-tagged blocks, whose ordered
concatenation is the empty string — the code returns `text = null`, not
the empty string, so the claimed equality fails for the OpenAI
variant. -/
theorem chatResponse_text_extraction_counterexample :
    OpenAISampler.normalizeResponse oaiNullContentResp
        = .ok { text := none, usage := { inputTokens := none, outputTokens := none },
                model := "gpt-4o-mini", stopReason := none, raw := oaiNullContentResp } ∧
    specOAITextConcat oaiNullContentResp = "" ∧
    ¬ ∃ resp : ChatResponse OAIResponse,
        OpenAISampler.normalizeResponse oaiNullContentResp = .ok resp ∧
        resp.text = some (specOAITextConcat oaiNullContentResp) := by
  refine ⟨rfl, rfl, ?_⟩
  rintro ⟨resp, h1, h2⟩
  have hc : OpenAISampler.normalizeResponse oaiNullContentResp
      = .ok { text := none, usage := { inputTokens := none, outputTokens := none },
              model := "gpt-4o-mini", stopReason := none, raw := oaiNullContentResp } := rfl
  rw [hc] at h1
  injection h1 with h1'
  rw [← h1'] at h2
  exact Option.noConfusion h2

/-- C7 (confirmed): the OpenAI streaming loop yields exactly the text
fragments of the incremental deltas that carry text, in emission order,
silently skipping chunks without text content; the Anthropic streaming
loop yields exactly the text fragments of events tagged
`content_block_delta` that carry text, silently skipping every other
event type; no skip raises an error (both loops are total). -/
theorem stream_fragment_extraction :
    (∀ chunks : List OAIChunk,
       OpenAISampler.chatStreamYields chunks = specOpenAIFragments chunks) ∧
    (∀ events : List ClaudeEvent,
       ClaudeSampler.chatStreamYields events = specClaudeFragments events) := by
  constructor
  · intro chunks
    induction chunks with
    | nil => rfl
    | cons c rest ih =>
      cases hc : chunkDeltaContent c with
      | none =>
        simp [OpenAISampler.chatStreamYields, specOpenAIFragments,
          List.filterMap_cons, hc, ih]
      | some dd =>
        by_cases hdd : dd = "" <;>
          simp [OpenAISampler.chatStreamYields, specOpenAIFragments,
            List.filterMap_cons, hc, hdd, ih]
  · intro events
    induction events with
    | nil => rfl
    | cons e rest ih =>
      by_cases ht : e.type = "content_block_delta"
      · cases hc : claudeEventText e with
        | none =>
          simp [ClaudeSampler.chatStreamYields, specClaudeFragments,
            List.filterMap_cons, ht, hc, ih]
        | some t =>
          by_cases htt : t = "" <;>
            simp [ClaudeSampler.chatStreamYields, specClaudeFragments,
              List.filterMap_cons, ht, hc, htt, ih]
      · simp [ClaudeSampler.chatStreamYields, specClaudeFragments,
          List.filterMap_cons, ht, ih]

/-- C10 (confirmed): a successful OpenAI-variant `chat` result never
carries a `stopReason` field, the Anthropic-variant result always takes
`stopReason` from the vendor response's `stop_reason`, and both carry the
complete raw vendor response in `raw`. -/
theorem stopReason_and_raw_fields :
    (∀ r : ClaudeResponse,
       (ClaudeSampler.normalizeResponse r).stopReason = r.stop_reason ∧
       (ClaudeSampler.normalizeResponse r).raw = r) ∧
    (∀ (r : OAIResponse) (resp : ChatResponse OAIResponse),
       OpenAISampler.normalizeResponse r = .ok resp →
       resp.stopReason = none ∧ resp.raw = r) := by
  constructor
  · intro r
    exact ⟨rfl, rfl⟩
  · intro r resp h
    unfold OpenAISampler.normalizeResponse at h
    cases hc : r.choices.head? with
    | none => rw [hc] at h; exact Except.noConfusion h
    | some c =>
      rw [hc] at h
      injection h with h1
      rw [← h1]
      exact ⟨rfl, rfl⟩

/-- Witness for C10 at a concrete successful OpenAI response. -/
theorem stopReason_and_raw_fields_witness :
    ({ text := some "hello", usage := { inputTokens := none, outputTokens := none },
       model := "gpt-4o-mini", stopReason := none,
       raw := oaiRespEx } : ChatResponse OAIResponse).stopReason = none ∧
    ({ text := some "hello", usage := { inputTokens := none, outputTokens := none },
       model := "gpt-4o-mini", stopReason := none,
       raw := oaiRespEx } : ChatResponse OAIResponse).raw = oaiRespEx :=
  stopReason_and_raw_fields.2 oaiRespEx _ rfl

/-- C4, amended: encoding an `Image{data, mediaType}` part through the
OpenAI-variant translation (data URL `data:<mediaType>;base64,<data>`)
and decoding through the Anthropic-variant translation's data-URL match
recovers the original `(data, mediaType)` pair exactly, provided the
declared media type is non-empty and contains no `;` and the payload is
non-empty and contains no line terminator (otherwise the regexp either
mis-splits at the first `;` or fails to match, falling back to a
URL-sourced image block). -/
theorem image_dataUrl_roundtrip (mt d : String) (h1 : mt ≠ "")
    (h2 : ∀ ch ∈ mt.data, ch ≠ ';') (h3 : d ≠ "")
    (h4 : ∀ ch ∈ d.data, jsLineTerm ch = false) :
    claudeFormatItem (openaiFormatItem (mkImageItem mt d)) = claudeImageBase64 mt d := by
  have hopen : openaiFormatItem (mkImageItem mt d)
      = { type := "image_url",
          image_url := some ⟨"data:" ++ mt ++ ";base64," ++ d⟩ } := by
    simp [openaiFormatItem, mkImageItem, jsOrStr, h1, h3]
  have hurl : ("data:" ++ mt ++ ";base64," ++ d) ≠ "" := by
    simp [String.ext_iff, String.data_append]
  have hassoc : ("data:" ++ mt ++ ";base64," ++ d)
      = "data:" ++ (mt ++ (";base64," ++ d)) := by
    simp [String.ext_iff, String.data_append, List.append_assoc]
  have hstarts : jsStartsWith ("data:" ++ mt ++ ";base64," ++ d) "data:" = true := by
    rw [hassoc]; exact jsStartsWith_append "data:" (mt ++ (";base64," ++ d))
  rw [hopen]
  simp [claudeFormatItem, hurl, hstarts,
    dataUrlRegexMatch_concat mt d h1 h2 h3 h4, claudeImageBase64]

/-- Witness for C4 at a concrete well-formed image part. -/
theorem image_dataUrl_roundtrip_witness :
    claudeFormatItem (openaiFormatItem (mkImageItem "image/png" "QUJD"))
      = claudeImageBase64 "image/png" "QUJD" :=
  image_dataUrl_roundtrip "image/png" "QUJD" (by decide) (by decide) (by decide) (by decide)

/-- C4 counterexample: for the media type `"a;base64,b"` (a declared
media type containing `;`) with payload `"D"`, the decode mis-splits the
encoded data URL at the first `;` and recovers `("a", "b;base64,D")`
instead of the original pair, so the round-trip claim fails without the
side conditions. -/
theorem image_dataUrl_roundtrip_counterexample :
    claudeFormatItem (openaiFormatItem (mkImageItem "a;base64,b" "D"))
        = claudeImageBase64 "a" "b;base64,D" ∧
    claudeFormatItem (openaiFormatItem (mkImageItem "a;base64,b" "D"))
        ≠ claudeImageBase64 "a;base64,b" "D" := by
  constructor
  · decide
  · decide
